import Mathlib

/-
  Verification of the bridge-protocol core of the movement repository.

  The Rust sources are shallowly embedded: pure functions become Lean
  functions on Nat / List Nat (machine integers are naturals reduced
  modulo 2^w exactly where the source wraps), fallible code returns
  Except, and code that can panic returns a RustOutcome value with an
  explicit panicked constructor.  Stateful chain interaction is made
  explicit: every adapter function takes the outcome of its chain calls
  as an environment argument and returns the list of chain effects it
  performs together with its result, so claims about call order and
  error propagation are statements about those lists and results.
-/

/-- Outcome of running a piece of Rust code that may panic (todo, assert,
    expect, unwrap).  A panic is not a typed error value: it unwinds and no
    Result is ever returned to the caller. -/
inductive RustOutcome (α : Type) where
  | ok (a : α)
  | panicked (msg : String)
deriving DecidableEq, Repr

/-! ## Byte-level encodings

BCS (Binary Canonical Serialization, the bcs crate) encodes fixed-width
unsigned integers little-endian at their full width, and vectors with a
ULEB128 length prefix.  These encoders embed the library behaviour used by
the sources. -/

/-- BCS encoding of a u64: 8 bytes, little-endian. -/
def bcsU64 (n : Nat) : List Nat :=
  (List.range 8).map (fun i => n / 2 ^ (8 * i) % 256)

/-- BCS encoding of a u128: 16 bytes, little-endian. -/
def bcsU128 (n : Nat) : List Nat :=
  (List.range 16).map (fun i => n / 2 ^ (8 * i) % 256)

/-- ULEB128 encoding of a length, as used by BCS for vector lengths. -/
def ulebEncode (n : Nat) : List Nat :=
  if h : n < 128 then [n]
  else (n % 128 + 128) :: ulebEncode (n / 128)
termination_by n
decreasing_by
  exact Nat.div_lt_self (by omega) (by omega)

/-- BCS encoding of a Vec of bytes: ULEB128 length prefix then the bytes. -/
def bcsVecU8 (v : List Nat) : List Nat := ulebEncode v.length ++ v

/-- BCS encoding of a fixed 32-byte array (AccountAddress, [u8; 32]):
    the raw bytes, no length prefix. -/
def bcsFixed32 (v : List Nat) : List Nat := v

namespace MvtTest

/-!  Embedding of the hash-input construction of
protocol-units/bridge/integration-tests/tests/client_mvt_tests.rs. -/

/-- Embeds the while loop of normalize_to_32_bytes (lines 113-119): it walks
    the whole input and pushes a byte exactly when it is nonzero.  The source
    comment says "Remove trailing zeroes", but the loop drops every zero byte
    wherever it occurs. -/
def removeZeroBytes : List Nat → List Nat
  | [] => []
  | b :: rest => if b ≠ 0 then b :: removeZeroBytes rest else removeZeroBytes rest

/-- Embeds normalize_to_32_bytes (client_mvt_tests.rs lines 109-133): drop the
    zero bytes, then left-pad the remainder with zeros to 32 bytes.
    For the inputs used by the test (8- and 16-byte BCS serializations) the
    subtraction 32 - meaningful.len() cannot underflow, so Nat subtraction
    matches the Rust usize subtraction. -/
def normalize_to_32_bytes (value : List Nat) : List Nat :=
  let meaningful := removeZeroBytes value
  let padding_length := 32 - meaningful.length
  List.replicate padding_length 0 ++ meaningful

/-- Embeds the combined_bytes construction of
    test_movement_client_complete_transfer (client_mvt_tests.rs lines
    151-161): initiator bytes, then the BCS bytes of the recipient account
    address, then the normalized BCS serialization of the amount (a u64 in
    bridge_service::types::Amount), then the normalized BCS serialization of
    the nonce (a u128 in bridge_util::types::Nonce).  The bridge transfer id
    of line 164 is the keccak-256 digest of this byte string, so equal
    combined bytes give an identical id. -/
def combined_bytes (initiator_bytes : List Nat) (recipient : List Nat)
    (amount : Nat) (nonce : Nat) : List Nat :=
  initiator_bytes ++ bcsFixed32 recipient
    ++ normalize_to_32_bytes (bcsU64 amount)
    ++ normalize_to_32_bytes (bcsU128 nonce)

end MvtTest

namespace Service

/-!  Embedding of protocol-units/bridge/service/src/actions.rs together with
the domain types of bridge_service / bridge_util it operates on. -/

/-- Chain identifier (bridge_service ChainId).  Modelled from the spec: the
    type is declared outside src/; the engine only threads it through, so it
    is embedded as the two-chain tag the spec describes (one per ledger). -/
inductive ChainId where
  | one
  | two
deriving DecidableEq, Repr

/-- Modelled from the spec: bridge_util::types::BridgeTransferId (declared
    outside src/) wraps the 32-byte transfer digest; embedded as its byte
    string. -/
structure BridgeTransferId where
  val : List Nat
deriving DecidableEq, Repr

/-- Modelled from the spec: bridge_util::types::HashLock (declared outside
    src/) wraps the 32-byte commitment. -/
structure HashLock where
  val : List Nat
deriving DecidableEq, Repr

/-- Modelled from the spec: bridge_util::types::HashLockPreImage (declared
    outside src/) wraps the secret bytes. -/
structure HashLockPreImage where
  val : List Nat
deriving DecidableEq, Repr

/-- Modelled from the spec: bridge_util::types::TimeLock (declared outside
    src/) wraps a u64 expiry in seconds; its field .0 is read as a u64 at
    the chain boundary (client.rs line 243). -/
structure TimeLock where
  val : Nat
deriving DecidableEq, Repr

/-- Modelled from the spec: bridge_util::types::Amount (declared outside
    src/) wraps the numeric transfer value; its field .0 is widened with
    U256::from at the EVM boundary (client.rs line 160), so it is embedded
    as the numeric value. -/
structure Amount where
  val : Nat
deriving DecidableEq, Repr

/-- Wrapper BridgeAddress(pub A) of bridge_util::types; the field val embeds
    the Rust field .0. -/
structure BridgeAddress (A : Type) where
  val : A
deriving DecidableEq, Repr

/-- Modelled from the spec: the bridge_util::chains::bridge_contracts error
    enum is declared outside src/; the constructors embedded here are
    exactly the ones the embedded sources construct (BadAddressEncoding in
    actions.rs line 96, ConversionFailed in client.rs line 154, GenericError
    in client.rs line 221, OnChainError in client.rs line 211). -/
inductive BridgeContractError where
  | BadAddressEncoding (msg : String)
  | ConversionFailed (msg : String)
  | GenericError (msg : String)
  | OnChainError (msg : String)
deriving DecidableEq, Repr

/-- TransferActionType of actions.rs lines 37-50. -/
inductive TransferActionType where
  | LockBridgeTransfer (bridge_transfer_id : BridgeTransferId) (hash_lock : HashLock)
      (initiator : BridgeAddress (List Nat)) (recipient : BridgeAddress (List Nat))
      (amount : Amount)
  | WaitAndCompleteInitiator (wait_time_sec : Nat) (preimage : HashLockPreImage)
  | RefundInitiator
  | TransferDone
  | NoAction
deriving DecidableEq, Repr

/-- TransferAction of actions.rs lines 25-30. -/
structure TransferAction where
  chain : ChainId
  transfer_id : BridgeTransferId
  kind : TransferActionType
deriving DecidableEq, Repr

/-- ActionExecError of actions.rs lines 10-17: always carries both the failed
    action and the underlying contract error. -/
structure ActionExecError where
  action : TransferAction
  error : BridgeContractError
deriving DecidableEq, Repr

/-- Chain effect performed while running the deferred work returned by
    process_action.  A generates the converted recipient type of the
    BridgeContract client (A: TryFrom of Vec u8 in the Rust signature). -/
inductive Effect (A : Type) where
  | fundRecipient (recipient : List Nat)
  | lockBridgeTransfer (bridge_transfer_id : BridgeTransferId) (hash_lock : HashLock)
      (initiator : BridgeAddress (List Nat)) (recipient : BridgeAddress A) (amount : Amount)
  | initiatorCompleteBridgeTransfer (bridge_transfer_id : BridgeTransferId)
      (secret : HashLockPreImage)
  | sleep (secs : Nat)
deriving DecidableEq, Repr

/-- Embeds a constructed tokio::time::sleep future (tokio library): building
    the future performs nothing; only awaiting it suspends. -/
structure SleepFuture where
  duration : Nat
deriving DecidableEq, Repr

/-- tokio::time::sleep(Duration::from_secs(secs)) constructs a sleep future. -/
def tokioSleep (secs : Nat) : SleepFuture := ⟨secs⟩

/-- Awaiting a sleep future is the only way it produces its delay: the
    awaiting task suspends for the duration, embedded as a sleep effect. -/
def awaitSleep (A : Type) (f : SleepFuture) : List (Effect A) :=
  [Effect.sleep f.duration]

/-- Outcomes of the chain calls the BridgeContract client can be asked to
    perform (the impl BridgeContract of the Rust signature), as an
    environment of per-call results. -/
structure BridgeContractClient (A : Type) where
  lock_bridge_transfer : BridgeTransferId → HashLock → BridgeAddress (List Nat) →
      BridgeAddress A → Amount → Except BridgeContractError Unit
  initiator_complete_bridge_transfer : BridgeTransferId → HashLockPreImage →
      Except BridgeContractError Unit

/-- Outcome of movement_utils::fund_recipient (crate-internal helper declared
    outside src/), as an environment of per-recipient results. -/
structure MovementUtilsEnv where
  fund_recipient : List Nat → Except BridgeContractError Unit

/-- Embeds the part of the LockBridgeTransfer future after the optional
    funding step (actions.rs lines 88-102): convert the recipient with
    try_into (the TryFrom instance of A, embedded as tryFromVec), failing
    with BadAddressEncoding wrapped in ActionExecError; then perform the
    lock_bridge_transfer call, wrapping any contract error with the action. -/
def lockCallRun (A : Type) (tryFromVec : List Nat → Option A)
    (action : TransferAction) (bridge_transfer_id : BridgeTransferId)
    (hash_lock : HashLock) (initiator : BridgeAddress (List Nat))
    (recipient : BridgeAddress (List Nat)) (amount : Amount)
    (client : BridgeContractClient A) :
    List (Effect A) × Except ActionExecError Unit :=
  match tryFromVec recipient.val with
  | none =>
      ([], Except.error ⟨action, BridgeContractError.BadAddressEncoding
        "lock bridge traénsfer fail to convert recipient address to vec<u8>"⟩)
  | some r =>
      ([Effect.lockBridgeTransfer bridge_transfer_id hash_lock initiator ⟨r⟩ amount],
        (client.lock_bridge_transfer bridge_transfer_id hash_lock initiator ⟨r⟩ amount).mapError
          (fun err => ⟨action, err⟩))

/-- Embeds the whole LockBridgeTransfer future (actions.rs lines 81-103): if
    the recipient address is 32 bytes long, first call
    movement_utils::fund_recipient; a funding error aborts the attempt,
    wrapped with the action, before any lock call; otherwise continue with
    the conversion and the lock call. -/
def lockBridgeTransferRun (A : Type) (tryFromVec : List Nat → Option A)
    (action : TransferAction) (bridge_transfer_id : BridgeTransferId)
    (hash_lock : HashLock) (initiator : BridgeAddress (List Nat))
    (recipient : BridgeAddress (List Nat)) (amount : Amount)
    (client : BridgeContractClient A) (env : MovementUtilsEnv) :
    List (Effect A) × Except ActionExecError Unit :=
  if recipient.val.length = 32 then
    match env.fund_recipient recipient.val with
    | Except.error e =>
        ([Effect.fundRecipient recipient.val], Except.error ⟨action, e⟩)
    | Except.ok _ =>
        let rest := lockCallRun A tryFromVec action bridge_transfer_id hash_lock
          initiator recipient amount client
        (Effect.fundRecipient recipient.val :: rest.1, rest.2)
  else
    lockCallRun A tryFromVec action bridge_transfer_id hash_lock
      initiator recipient amount client

/-- Embeds the WaitAndCompleteInitiator future (actions.rs lines 107-115).
    Line 109 reads: let _ = tokio::time::sleep(Duration::from_secs(wait_time_sec));
    the sleep future is constructed and bound to the wildcard without .await,
    so it is dropped and contributes no sleep effect; the completion call
    then runs immediately, wrapping any contract error with the action. -/
def waitAndCompleteInitiatorRun (A : Type) (action : TransferAction)
    (wait_time_sec : Nat) (secret : HashLockPreImage)
    (client : BridgeContractClient A) :
    List (Effect A) × Except ActionExecError Unit :=
  let sleepEffects : List (Effect A) :=
    if wait_time_sec ≠ 0 then
      let _unawaited : SleepFuture := tokioSleep wait_time_sec
      []
    else []
  (sleepEffects ++ [Effect.initiatorCompleteBridgeTransfer action.transfer_id secret],
    (client.initiator_complete_bridge_transfer action.transfer_id secret).mapError
      (fun err => ⟨action, err⟩))

/-- Embeds process_action (actions.rs lines 65-122): LockBridgeTransfer and
    WaitAndCompleteInitiator return a deferred unit of work (embedded as the
    effect list and result of running the returned future);
    RefundInitiator, TransferDone and NoAction return None. -/
def process_action (A : Type) (tryFromVec : List Nat → Option A)
    (action : TransferAction) (client : BridgeContractClient A)
    (env : MovementUtilsEnv) :
    Option (List (Effect A) × Except ActionExecError Unit) :=
  match action.kind with
  | TransferActionType.LockBridgeTransfer bridge_transfer_id hash_lock initiator
      recipient amount =>
      some (lockBridgeTransferRun A tryFromVec action bridge_transfer_id hash_lock
        initiator recipient amount client env)
  | TransferActionType.WaitAndCompleteInitiator wait_time_sec secret =>
      some (waitAndCompleteInitiatorRun A action wait_time_sec secret client)
  | TransferActionType.RefundInitiator => none
  | TransferActionType.TransferDone => none
  | TransferActionType.NoAction => none

/-- Total seconds actually slept while running a deferred unit of work. -/
def sleptSeconds (A : Type) (effects : List (Effect A)) : Nat :=
  (effects.map (fun e => match e with
    | Effect.sleep s => s
    | _ => 0)).sum

end Service

namespace MovementChain

/-!  Embedding of protocol-units/bridge/chains/movement/src/lib.rs (the
account-chain adapter of the bridge_shared generation) and the
bridge_shared domain types it uses. -/

/-- Modelled from the spec: the bridge_shared counterparty error enum is
    declared outside src/; the constructors embedded here are exactly the
    ones lib.rs constructs (lines 136, 159, 180). -/
inductive BridgeContractCounterpartyError where
  | LockTransferAssetsError
  | CompleteTransferError
  | AbortTransferError
deriving DecidableEq, Repr

/-- Move type tags used in the positional type-argument lists
    (counterparty_type_args, lib.rs lines 199-206). -/
inductive TypeTag where
  | address
  | u64
  | u8
deriving DecidableEq, Repr

/-- Call kinds of the Call enum (lib.rs lines 33-38). -/
inductive Call where
  | Lock
  | Complete
  | Abort
  | GetDetails
deriving DecidableEq, Repr

/-- counterparty_type_args (lib.rs lines 199-206): the fixed positional
    type-tag signature per operation kind. -/
def counterparty_type_args : Call → List TypeTag
  | Call.Lock => [TypeTag.address, TypeTag.u64, TypeTag.u64, TypeTag.u8]
  | Call.Complete => [TypeTag.address, TypeTag.u64, TypeTag.u8]
  | Call.Abort => [TypeTag.address, TypeTag.u64]
  | Call.GetDetails => [TypeTag.address, TypeTag.u64]

/-- Entry-function payload built by utils::make_aptos_payload: module
    address, module name, function name, type arguments and BCS-encoded
    positional arguments. -/
structure AptosPayload where
  address : List Nat
  module_name : String
  function_name : String
  type_args : List TypeTag
  args : List (List Nat)
deriving DecidableEq, Repr

/-- make_aptos_payload of the crate utils module (declared outside src/ but
    fully determined by its call sites): packs the payload fields. -/
def make_aptos_payload (address : List Nat) (module_name : String)
    (function_name : String) (type_args : List TypeTag)
    (args : List (List Nat)) : AptosPayload :=
  ⟨address, module_name, function_name, type_args, args⟩

/-- State of a MovementClient (lib.rs lines 40-50) visible to the embedded
    operations: the module addresses and the signer address; the REST and
    faucet clients are the transport collaborators abstracted by
    MovementChainEnv. -/
structure MovementClient where
  counterparty_address : List Nat
  initiator_address : List Nat
  signer_address : List Nat
deriving DecidableEq, Repr

/-- Outcome of utils::send_aptos_transaction for each submitted payload
    (the chain transport collaborator): ok when the transaction succeeds,
    an error when the chain rejects it. -/
structure MovementChainEnv where
  send_aptos_transaction : AptosPayload → Except String Unit

/-- COUNTERPARTY_MODULE_NAME (lib.rs line 31). -/
def COUNTERPARTY_MODULE_NAME : String := "atomic_bridge_counterparty"

/-- Embeds lock_bridge_transfer_assets (lib.rs lines 110-138).  The argument
    list is BCS-serialized in source order; the transaction is submitted, and
    the result of send_aptos_transaction, after map_err to
    LockTransferAssetsError, is bound to the wildcard and discarded (line
    134), so the function returns Ok(()) whatever the chain said.  The
    returned list holds the payloads actually submitted. -/
def lock_bridge_transfer_assets (c : MovementClient) (env : MovementChainEnv)
    (bridge_transfer_id : List Nat) (hash_lock : List Nat) (time_lock : Nat)
    (recipient : List Nat) (amount : Nat) :
    List AptosPayload × Except BridgeContractCounterpartyError Unit :=
  let args := [bcsFixed32 c.signer_address, bcsFixed32 bridge_transfer_id,
    bcsFixed32 hash_lock, bcsU64 time_lock, bcsVecU8 recipient, bcsU64 amount]
  let payload := make_aptos_payload c.counterparty_address COUNTERPARTY_MODULE_NAME
    "lock_bridge_transfer_assets" (counterparty_type_args Call.Lock) args
  let _discarded := (env.send_aptos_transaction payload).mapError
    (fun _ => BridgeContractCounterpartyError.LockTransferAssetsError)
  ([payload], Except.ok ())

/-- Embeds complete_bridge_transfer (lib.rs lines 140-161): same shape, and
    the mapped CompleteTransferError is likewise discarded (line 157). -/
def complete_bridge_transfer (c : MovementClient) (env : MovementChainEnv)
    (bridge_transfer_id : List Nat) (preimage : List Nat) :
    List AptosPayload × Except BridgeContractCounterpartyError Unit :=
  let args := [bcsFixed32 c.signer_address, bcsFixed32 bridge_transfer_id,
    bcsVecU8 preimage]
  let payload := make_aptos_payload c.counterparty_address COUNTERPARTY_MODULE_NAME
    "complete_bridge_transfer" (counterparty_type_args Call.Complete) args
  let _discarded := (env.send_aptos_transaction payload).mapError
    (fun _ => BridgeContractCounterpartyError.CompleteTransferError)
  ([payload], Except.ok ())

/-- Embeds abort_bridge_transfer (lib.rs lines 163-182): same shape, and the
    mapped AbortTransferError is likewise discarded (line 178). -/
def abort_bridge_transfer (c : MovementClient) (env : MovementChainEnv)
    (bridge_transfer_id : List Nat) :
    List AptosPayload × Except BridgeContractCounterpartyError Unit :=
  let args := [bcsFixed32 c.signer_address, bcsFixed32 bridge_transfer_id]
  let payload := make_aptos_payload c.counterparty_address COUNTERPARTY_MODULE_NAME
    "abort_bridge_transfer" (counterparty_type_args Call.Abort) args
  let _discarded := (env.send_aptos_transaction payload).mapError
    (fun _ => BridgeContractCounterpartyError.AbortTransferError)
  ([payload], Except.ok ())

/-- Placeholder for the details record an implemented getter would return;
    the body below never builds one. -/
structure BridgeTransferDetailsMvt where
  bridge_transfer_id : List Nat
deriving DecidableEq, Repr

/-- Embeds get_bridge_transfer_details (lib.rs lines 184-196): the view
    request is commented out and the body is todo!(), so the call panics
    unconditionally before submitting any payload and never returns a
    Result.  The empty list records that no chain interaction happens. -/
def get_bridge_transfer_details (c : MovementClient) (env : MovementChainEnv)
    (bridge_transfer_id : List Nat) :
    List AptosPayload ×
      RustOutcome (Except BridgeContractCounterpartyError
        (Option BridgeTransferDetailsMvt)) :=
  ([], RustOutcome.panicked "not yet implemented")

/-- Embeds the impl Clone for MovementClient (lib.rs lines 99-103): the body
    is todo!(), so cloning panics unconditionally. -/
def cloneMovementClient (c : MovementClient) : RustOutcome MovementClient :=
  RustOutcome.panicked "not yet implemented"

end MovementChain

namespace EthChainTypes

/-!  Embedding of the address conversions of
protocol-units/bridge/chains/ethereum/src/types.rs. -/

/-- EthAddress (types.rs line 62) wraps the 20-byte alloy Address; embedded
    as its byte string. -/
structure EthAddress where
  val : List Nat
deriving DecidableEq, Repr

/-- Embeds the impl From of Vec u8 for EthAddress (types.rs lines 78-87):
    assert_eq!(vec.len(), 20) panics on any other length; on length 20 the
    bytes are copied verbatim.  The conversion has no error value: its only
    outcomes are an address or a panic. -/
def ethAddressFromVec (vec : List Nat) : RustOutcome EthAddress :=
  if vec.length = 20 then RustOutcome.ok ⟨vec⟩
  else RustOutcome.panicked "assertion failed: vec.len() == 20"

/-- Embeds the impl From of [u8; 32] for EthAddress (types.rs lines 89-95):
    copy_from_slice(bytes[0..20]) keeps the first 20 bytes and drops the last
    12; the conversion is total and cannot fail.  The 32-byte input is
    embedded as a list known (at the use sites) to have length 32. -/
def ethAddressFromBytes32 (bytes : List Nat) : EthAddress :=
  ⟨bytes.take 20⟩

end EthChainTypes

namespace Service

/-!  Embedding of protocol-units/bridge/service/src/chains/ethereum/client.rs:
the storage-decoding read path of the EVM adapter.  The RPC call
get_storage_at is the transport collaborator; it is abstracted as the
32-byte storage word found at the computed slot, which per EVM semantics
is zero when no record has ever been written there. -/

/-- Big-endian value of a byte string (alloy_rlp unsigned-integer payload). -/
def beNat (bytes : List Nat) : Nat :=
  bytes.foldl (fun acc b => acc * 256 + b) 0

/-- to_be_bytes::<32> of an alloy U256 (client.rs line 231): the 32-byte
    big-endian representation of the word. -/
def toBeBytes32 (x : Nat) : List Nat :=
  (List.range 32).map (fun i => x / 2 ^ (8 * (31 - i)) % 256)

/-- wrapping_to::<u64> of an alloy U256 (client.rs lines 243 and 275): keep
    the low 64 bits, silently discarding anything above them. -/
def wrappingToU64 (x : Nat) : Nat := x % 2 ^ 64

/-- RLP item header (alloy_rlp Header): whether the item is a list and the
    length of its payload. -/
structure RlpHeader where
  isList : Bool
  payloadLength : Nat
deriving DecidableEq, Repr

/-- Decode an RLP header per the RLP rules implemented by alloy_rlp
    (Header::decode): a byte below 0x80 is itself a one-byte payload (the
    buffer is not advanced); 0x80-0xb7 a short string; 0xb8-0xbf a long
    string with big-endian length; 0xc0-0xf7 a short list; 0xf8-0xff a long
    list.  Returns the header and the buffer positioned at the payload. -/
def rlpHeaderDecode (buf : List Nat) : Except String (RlpHeader × List Nat) :=
  match buf with
  | [] => Except.error "input too short"
  | b :: rest =>
    if b < 0x80 then
      Except.ok (⟨false, 1⟩, buf)
    else if b ≤ 0xb7 then
      let len := b - 0x80
      if rest.length < len then Except.error "input too short"
      else Except.ok (⟨false, len⟩, rest)
    else if b ≤ 0xbf then
      let lenOfLen := b - 0xb7
      if rest.length < lenOfLen then Except.error "input too short"
      else
        let len := beNat (rest.take lenOfLen)
        if (rest.drop lenOfLen).length < len then Except.error "input too short"
        else Except.ok (⟨false, len⟩, rest.drop lenOfLen)
    else if b ≤ 0xf7 then
      let len := b - 0xc0
      if rest.length < len then Except.error "input too short"
      else Except.ok (⟨true, len⟩, rest)
    else
      let lenOfLen := b - 0xf7
      if rest.length < lenOfLen then Except.error "input too short"
      else
        let len := beNat (rest.take lenOfLen)
        if (rest.drop lenOfLen).length < len then Except.error "input too short"
        else Except.ok (⟨true, len⟩, rest.drop lenOfLen)

/-- Decode an RLP fixed-width byte array of exactly n bytes (the alloy_rlp
    Decodable instances for Address and [u8; N]): the item must be a string
    of exactly that payload length. -/
def rlpDecodeFixedBytes (n : Nat) (buf : List Nat) :
    Except String (List Nat × List Nat) :=
  match rlpHeaderDecode buf with
  | Except.error e => Except.error e
  | Except.ok (h, rest) =>
    if h.isList then Except.error "unexpected list"
    else if h.payloadLength ≠ n then Except.error "unexpected length"
    else Except.ok (rest.take n, rest.drop n)

/-- Decode an RLP unsigned integer of at most maxBytes payload bytes (the
    alloy_rlp Decodable instances for U256 and u8): the item must be a
    string, fit the width, and carry no leading zero byte. -/
def rlpDecodeUint (maxBytes : Nat) (buf : List Nat) :
    Except String (Nat × List Nat) :=
  match rlpHeaderDecode buf with
  | Except.error e => Except.error e
  | Except.ok (h, rest) =>
    if h.isList then Except.error "unexpected list"
    else if maxBytes < h.payloadLength then Except.error "overflow"
    else
      let payload := rest.take h.payloadLength
      match payload with
      | 0 :: _ => Except.error "leading zero"
      | _ => Except.ok (beNat payload, rest.drop h.payloadLength)

/-- EthBridgeTransferDetails (client.rs lines 56-64): the raw struct decoded
    from contract storage, with U256 amount and time lock. -/
structure EthBridgeTransferDetails where
  amount : Nat
  originator : List Nat
  recipient : List Nat
  hash_lock : List Nat
  time_lock : Nat
  state : Nat
deriving DecidableEq, Repr

/-- EthBridgeTransferDetailsCounterparty (client.rs lines 66-74): the
    counterparty-side raw struct; originator is a 32-byte array and the
    recipient a 20-byte EVM address. -/
structure EthBridgeTransferDetailsCounterparty where
  amount : Nat
  originator : List Nat
  recipient : List Nat
  hash_lock : List Nat
  time_lock : Nat
  state : Nat
deriving DecidableEq, Repr

/-- Derived RLP decoding of EthBridgeTransferDetails (the RlpDecodable
    derive of client.rs line 56): a list header, then the fields in
    declaration order, consuming the payload exactly. -/
def ethBridgeTransferDetailsDecode (buf : List Nat) :
    Except String EthBridgeTransferDetails :=
  match rlpHeaderDecode buf with
  | Except.error e => Except.error e
  | Except.ok (h, rest) =>
    if !h.isList then Except.error "unexpected string"
    else
      let payload := rest.take h.payloadLength
      match rlpDecodeUint 32 payload with
      | Except.error e => Except.error e
      | Except.ok (amount, p1) =>
        match rlpDecodeFixedBytes 20 p1 with
        | Except.error e => Except.error e
        | Except.ok (originator, p2) =>
          match rlpDecodeFixedBytes 32 p2 with
          | Except.error e => Except.error e
          | Except.ok (recipient, p3) =>
            match rlpDecodeFixedBytes 32 p3 with
            | Except.error e => Except.error e
            | Except.ok (hash_lock, p4) =>
              match rlpDecodeUint 32 p4 with
              | Except.error e => Except.error e
              | Except.ok (time_lock, p5) =>
                match rlpDecodeUint 1 p5 with
                | Except.error e => Except.error e
                | Except.ok (state, p6) =>
                  if p6 ≠ [] then Except.error "list length mismatch"
                  else Except.ok ⟨amount, originator, recipient, hash_lock,
                    time_lock, state⟩

/-- Derived RLP decoding of EthBridgeTransferDetailsCounterparty (client.rs
    line 66): same shape with the 32-byte originator before the 20-byte
    recipient. -/
def ethBridgeTransferDetailsCounterpartyDecode (buf : List Nat) :
    Except String EthBridgeTransferDetailsCounterparty :=
  match rlpHeaderDecode buf with
  | Except.error e => Except.error e
  | Except.ok (h, rest) =>
    if !h.isList then Except.error "unexpected string"
    else
      let payload := rest.take h.payloadLength
      match rlpDecodeUint 32 payload with
      | Except.error e => Except.error e
      | Except.ok (amount, p1) =>
        match rlpDecodeFixedBytes 32 p1 with
        | Except.error e => Except.error e
        | Except.ok (originator, p2) =>
          match rlpDecodeFixedBytes 20 p2 with
          | Except.error e => Except.error e
          | Except.ok (recipient, p3) =>
            match rlpDecodeFixedBytes 32 p3 with
            | Except.error e => Except.error e
            | Except.ok (hash_lock, p4) =>
              match rlpDecodeUint 32 p4 with
              | Except.error e => Except.error e
              | Except.ok (time_lock, p5) =>
                match rlpDecodeUint 1 p5 with
                | Except.error e => Except.error e
                | Except.ok (state, p6) =>
                  if p6 ≠ [] then Except.error "list length mismatch"
                  else Except.ok ⟨amount, originator, recipient, hash_lock,
                    time_lock, state⟩

/-- BridgeTransferDetails of bridge_util::types as constructed by client.rs
    lines 238-246: the domain record returned by the initiator-side read. -/
structure BridgeTransferDetails where
  bridge_transfer_id : BridgeTransferId
  initiator : BridgeAddress (List Nat)
  recipient : BridgeAddress (List Nat)
  hash_lock : HashLock
  time_lock : TimeLock
  amount : Amount
  state : Nat
deriving DecidableEq, Repr

/-- BridgeTransferDetailsCounterparty of bridge_util::types as constructed
    by client.rs lines 270-278. -/
structure BridgeTransferDetailsCounterparty where
  bridge_transfer_id : BridgeTransferId
  initiator : BridgeAddress (List Nat)
  recipient : BridgeAddress (List Nat)
  hash_lock : HashLock
  time_lock : TimeLock
  amount : Amount
  state : Nat
deriving DecidableEq, Repr

/-- Modelled from the spec: the impl From of U256 for Amount lives in
    bridge_util (not under src/); the spec requires amounts to be preserved
    exactly end-to-end, so the modelled conversion keeps the numeric value. -/
def amountFromU256 (x : Nat) : Amount := ⟨x⟩

/-- Embeds the record construction of get_bridge_transfer_details_initiator
    (client.rs lines 238-246): the decoded struct is turned into the domain
    record, the time lock passing through wrapping_to::<u64> with no width
    check and the amount through the Amount conversion. -/
def toBridgeTransferDetails (bridge_transfer_id : BridgeTransferId)
    (eth_details : EthBridgeTransferDetails) : BridgeTransferDetails :=
  { bridge_transfer_id := bridge_transfer_id
    initiator := ⟨eth_details.originator⟩
    recipient := ⟨eth_details.recipient⟩
    hash_lock := ⟨eth_details.hash_lock⟩
    time_lock := ⟨wrappingToU64 eth_details.time_lock⟩
    amount := amountFromU256 eth_details.amount
    state := eth_details.state }

/-- Embeds the record construction of
    get_bridge_transfer_details_counterparty (client.rs lines 270-278). -/
def toBridgeTransferDetailsCounterparty (bridge_transfer_id : BridgeTransferId)
    (eth_details : EthBridgeTransferDetailsCounterparty) :
    BridgeTransferDetailsCounterparty :=
  { bridge_transfer_id := bridge_transfer_id
    initiator := ⟨eth_details.originator⟩
    recipient := ⟨eth_details.recipient⟩
    hash_lock := ⟨eth_details.hash_lock⟩
    time_lock := ⟨wrappingToU64 eth_details.time_lock⟩
    amount := amountFromU256 eth_details.amount
    state := eth_details.state }

/-- Embeds get_bridge_transfer_details_initiator (client.rs lines 217-247)
    given the storage word at the computed slot (zero when no record exists):
    the word is serialized big-endian, RLP-decoded into
    EthBridgeTransferDetails (a decode failure is the GenericError of line
    236), and on success the record is always returned inside Some. -/
def get_bridge_transfer_details_initiator (bridge_transfer_id : BridgeTransferId)
    (storage : Nat) : Except BridgeContractError (Option BridgeTransferDetails) :=
  let storage_bytes := toBeBytes32 storage
  match ethBridgeTransferDetailsDecode storage_bytes with
  | Except.error _ => Except.error (BridgeContractError.GenericError "could not decode storage")
  | Except.ok eth_details =>
      Except.ok (some (toBridgeTransferDetails bridge_transfer_id eth_details))

/-- Embeds get_bridge_transfer_details_counterparty (client.rs lines
    249-279), same read path against the counterparty struct layout. -/
def get_bridge_transfer_details_counterparty (bridge_transfer_id : BridgeTransferId)
    (storage : Nat) :
    Except BridgeContractError (Option BridgeTransferDetailsCounterparty) :=
  let storage_bytes := toBeBytes32 storage
  match ethBridgeTransferDetailsCounterpartyDecode storage_bytes with
  | Except.error _ => Except.error (BridgeContractError.GenericError "could not decode storage")
  | Except.ok eth_details =>
      Except.ok (some (toBridgeTransferDetailsCounterparty bridge_transfer_id eth_details))

end Service

/-! ## Concrete fixtures used by witness theorems -/

/-- A trivial converted-recipient type instance for running the action
    engine on concrete inputs. -/
def sampleTryFromUnit : List Nat → Option Unit := fun _ => some ()

/-- A client whose chain calls all succeed. -/
def sampleClientUnit : Service.BridgeContractClient Unit :=
  ⟨fun _ _ _ _ _ => Except.ok (), fun _ _ => Except.ok ()⟩

/-- A funding environment in which fund_recipient always fails. -/
def sampleFundFailEnv : Service.MovementUtilsEnv :=
  ⟨fun _ => Except.error (Service.BridgeContractError.GenericError "no funds")⟩

/-- A funding environment in which fund_recipient always succeeds. -/
def sampleFundOkEnv : Service.MovementUtilsEnv :=
  ⟨fun _ => Except.ok ()⟩

/-- A movement chain environment in which every submitted transaction is
    rejected by the chain. -/
def sampleRejectingMvtEnv : MovementChain.MovementChainEnv :=
  ⟨fun _ => Except.error "rejected"⟩

/-- A movement client value with all-zero addresses. -/
def sampleMvtClient : MovementChain.MovementClient :=
  ⟨List.replicate 32 0, List.replicate 32 0, List.replicate 32 0⟩

/-- A lock action whose recipient is a 32-byte account address. -/
def sampleLockAction : Service.TransferAction :=
  ⟨Service.ChainId.one, ⟨List.replicate 32 0⟩,
    Service.TransferActionType.LockBridgeTransfer ⟨List.replicate 32 0⟩
      ⟨List.replicate 32 0⟩ ⟨List.replicate 32 1⟩ ⟨List.replicate 32 2⟩ ⟨100⟩⟩

/-- A wait-and-complete action with a five second wait. -/
def sampleWaitAction : Service.TransferAction :=
  ⟨Service.ChainId.one, ⟨List.replicate 32 3⟩,
    Service.TransferActionType.WaitAndCompleteInitiator 5 ⟨[1, 2, 3]⟩⟩

/-- A refund action. -/
def sampleRefundAction : Service.TransferAction :=
  ⟨Service.ChainId.one, ⟨List.replicate 32 4⟩,
    Service.TransferActionType.RefundInitiator⟩

/-! ## Claims -/

/-- C1 counterexample: the claim says two distinct amount values never
    normalize to the same 32-byte string, but the amounts 1 and 256, whose
    8-byte BCS serializations differ only in the position of their zero
    bytes, normalize to identical 32-byte strings, because
    normalize_to_32_bytes drops every zero byte before left-padding. -/
theorem normalize_collides_on_distinct_amounts :
    (1 : Nat) ≠ 256 ∧
    MvtTest.normalize_to_32_bytes (bcsU64 1) =
      MvtTest.normalize_to_32_bytes (bcsU64 256) := by
  constructor
  · decide
  · decide

/-- C1 amended: the transfer id is the keccak-256 digest of initiator bytes
    ++ recipient BCS bytes ++ normalize(bcs(amount)) ++ normalize(bcs(nonce)),
    where the normalization removes every zero byte of the serialization and
    left-pads the remainder with zeros to 32 bytes; the derivation is
    deterministic, but the normalization is not injective on numeric values:
    the distinct amounts 1 and 256 give identical hash input for any
    initiator, recipient and nonce, hence an identical id. -/
theorem bridge_transfer_id_hash_input :
    (∀ v : List Nat, MvtTest.removeZeroBytes v = v.filter (fun b => b != 0)) ∧
    (∀ i r : List Nat, ∀ nonce : Nat,
      MvtTest.combined_bytes i r 1 nonce = MvtTest.combined_bytes i r 256 nonce) := by
  have hfilter : ∀ v : List Nat, MvtTest.removeZeroBytes v = v.filter (fun b => b != 0) := by
    intro v
    induction v with
    | nil => rfl
    | cons b rest ih =>
      by_cases h : b = 0
      · simp [MvtTest.removeZeroBytes, h, ih]
      · simp [MvtTest.removeZeroBytes, h, ih]
  have hcollide : MvtTest.normalize_to_32_bytes (bcsU64 1) =
      MvtTest.normalize_to_32_bytes (bcsU64 256) := by decide
  refine ⟨hfilter, ?_⟩
  intro i r nonce
  simp [MvtTest.combined_bytes, hcollide]

/-- C2: the claim says a rejected lock (and any rejected counterparty
    operation) surfaces as a typed error; the code instead maps the
    rejection to the typed error, binds it to the wildcard, discards it and
    returns Ok(()).  Even in an environment in which the chain rejects every
    submitted transaction, all three counterparty operations return Ok. -/
theorem movement_counterparty_discards_chain_rejection :
    ∀ (c : MovementChain.MovementClient) (env : MovementChain.MovementChainEnv)
      (bridge_transfer_id hash_lock recipient preimage : List Nat)
      (time_lock amount : Nat),
      (∀ p, env.send_aptos_transaction p = Except.error "rejected") →
      (MovementChain.lock_bridge_transfer_assets c env bridge_transfer_id
          hash_lock time_lock recipient amount).2 = Except.ok () ∧
      (MovementChain.complete_bridge_transfer c env bridge_transfer_id
          preimage).2 = Except.ok () ∧
      (MovementChain.abort_bridge_transfer c env bridge_transfer_id).2 =
        Except.ok () := by
  intro c env bridge_transfer_id hash_lock recipient preimage time_lock amount hrej
  exact ⟨rfl, rfl, rfl⟩

/-- C2 witness: concrete run of the three counterparty operations against a
    chain that rejects every transaction; all three still return Ok. -/
theorem movement_counterparty_discards_chain_rejection_witness :
    (MovementChain.lock_bridge_transfer_assets sampleMvtClient
        sampleRejectingMvtEnv (List.replicate 32 0) (List.replicate 32 0) 3
        (List.replicate 32 0) 100).2 = Except.ok () ∧
    (MovementChain.complete_bridge_transfer sampleMvtClient
        sampleRejectingMvtEnv (List.replicate 32 0) [1, 2, 3]).2 = Except.ok () ∧
    (MovementChain.abort_bridge_transfer sampleMvtClient sampleRejectingMvtEnv
        (List.replicate 32 0)).2 = Except.ok () :=
  movement_counterparty_discards_chain_rejection sampleMvtClient
    sampleRejectingMvtEnv (List.replicate 32 0) (List.replicate 32 0)
    (List.replicate 32 0) [1, 2, 3] 3 100 (fun _ => rfl)

/-- C3: the claim says the deferred work of WaitAndCompleteInitiator with a
    nonzero wait actually sleeps that long before the completion call; in
    the code the sleep future of line 109 is bound to the wildcard and never
    awaited, so running the deferred work performs no sleep at all: its only
    effect is the immediate completion call.  Awaiting the constructed sleep
    future would have produced the missing sleep effect. -/
theorem wait_and_complete_never_sleeps :
    ∀ (A : Type) (tryFromVec : List Nat → Option A)
      (action : Service.TransferAction) (wait_time_sec : Nat)
      (secret : Service.HashLockPreImage)
      (client : Service.BridgeContractClient A) (env : Service.MovementUtilsEnv),
      action.kind = Service.TransferActionType.WaitAndCompleteInitiator
        wait_time_sec secret →
      ∃ run, Service.process_action A tryFromVec action client env = some run ∧
        run.1 = [Service.Effect.initiatorCompleteBridgeTransfer
          action.transfer_id secret] ∧
        Service.sleptSeconds A run.1 = 0 ∧
        Service.awaitSleep A (Service.tokioSleep wait_time_sec) =
          [Service.Effect.sleep wait_time_sec] := by
  intro A tryFromVec action wait_time_sec secret client env hkind
  refine ⟨Service.waitAndCompleteInitiatorRun A action wait_time_sec secret client,
    ?_, ?_, ?_, rfl⟩
  · simp [Service.process_action, hkind]
  · simp [Service.waitAndCompleteInitiatorRun]
  · simp [Service.waitAndCompleteInitiatorRun, Service.sleptSeconds]

/-- C3 witness: concrete run of a WaitAndCompleteInitiator action with a
    five second wait: the deferred work sleeps zero seconds and immediately
    performs the completion call. -/
theorem wait_and_complete_never_sleeps_witness :
    ∃ run, Service.process_action Unit sampleTryFromUnit sampleWaitAction
        sampleClientUnit sampleFundOkEnv = some run ∧
      run.1 = [Service.Effect.initiatorCompleteBridgeTransfer
        sampleWaitAction.transfer_id ⟨[1, 2, 3]⟩] ∧
      Service.sleptSeconds Unit run.1 = 0 ∧
      Service.awaitSleep Unit (Service.tokioSleep 5) = [Service.Effect.sleep 5] :=
  wait_and_complete_never_sleeps Unit sampleTryFromUnit sampleWaitAction 5
    ⟨[1, 2, 3]⟩ sampleClientUnit sampleFundOkEnv rfl

/-- C4 counterexample: the claim says numeric fields decoded at the chain
    boundary are never silently truncated without an explicit width check,
    but a decoded record whose time lock word is 2^64 is converted by
    wrapping_to::<u64> into the time lock 0 with no error: the conversion is
    total and the output differs from the stored value. -/
theorem time_lock_decode_truncates :
    (Service.toBridgeTransferDetails ⟨List.replicate 32 0⟩
      ⟨100000000, List.replicate 20 0, List.replicate 32 0, List.replicate 32 0,
        2 ^ 64, 1⟩).time_lock.val = 0 ∧
    (2 : Nat) ^ 64 ≠ 0 := by
  constructor
  · show Service.wrappingToU64 (2 ^ 64) = 0
    decide
  · decide

/-- C4 amended: at the chain boundary the amount passes through the Amount
    conversion unchanged (per the spec-modelled bridge_util conversion, so a
    stored amount of 100,000,000 reads back as exactly 100,000,000), while
    the time lock of both detail records passes through wrapping_to::<u64>,
    which reduces the stored word modulo 2^64 with no width check: values
    that fit in 64 bits read back exactly, wider values wrap silently. -/
theorem chain_boundary_decode_behaviour :
    ∀ (id : Service.BridgeTransferId) (eth : Service.EthBridgeTransferDetails)
      (ethc : Service.EthBridgeTransferDetailsCounterparty),
      (Service.toBridgeTransferDetails id eth).amount.val = eth.amount ∧
      (Service.toBridgeTransferDetails id eth).time_lock.val =
        eth.time_lock % 2 ^ 64 ∧
      (Service.toBridgeTransferDetailsCounterparty id ethc).amount.val =
        ethc.amount ∧
      (Service.toBridgeTransferDetailsCounterparty id ethc).time_lock.val =
        ethc.time_lock % 2 ^ 64 := by
  intro id eth ethc
  exact ⟨rfl, rfl, rfl, rfl⟩

/-- C5 counterexample: the claim says a transfer id with no on-chain record
    yields Ok(None); for an absent record the storage word at the computed
    slot is zero, its 32 big-endian bytes do not RLP-decode as a struct, and
    both getters return the GenericError of the decode branch instead of
    Ok(None). -/
theorem absent_record_read_is_error :
    Service.get_bridge_transfer_details_initiator ⟨List.replicate 32 0⟩ 0 =
      Except.error (Service.BridgeContractError.GenericError
        "could not decode storage") ∧
    Service.get_bridge_transfer_details_counterparty ⟨List.replicate 32 0⟩ 0 =
      Except.error (Service.BridgeContractError.GenericError
        "could not decode storage") := by
  constructor
  · rfl
  · rfl

/-- C5 amended: neither getter can ever return Ok(None): each returns either
    the decode error or Ok(Some record), and on the zero storage word of an
    absent record it returns the decode error. -/
theorem read_details_never_ok_none :
    ∀ (id : Service.BridgeTransferId) (storage : Nat),
      Service.get_bridge_transfer_details_initiator id storage ≠
        Except.ok none ∧
      Service.get_bridge_transfer_details_counterparty id storage ≠
        Except.ok none ∧
      Service.get_bridge_transfer_details_initiator id 0 =
        Except.error (Service.BridgeContractError.GenericError
          "could not decode storage") ∧
      Service.get_bridge_transfer_details_counterparty id 0 =
        Except.error (Service.BridgeContractError.GenericError
          "could not decode storage") := by
  intro id storage
  refine ⟨?_, ?_, rfl, rfl⟩
  · unfold Service.get_bridge_transfer_details_initiator
    rcases h : Service.ethBridgeTransferDetailsDecode
      (Service.toBeBytes32 storage) with e | d <;> simp [h]
  · unfold Service.get_bridge_transfer_details_counterparty
    rcases h : Service.ethBridgeTransferDetailsCounterpartyDecode
      (Service.toBeBytes32 storage) with e | d <;> simp [h]

/-- C6 counterexample: the claim says a byte sequence whose length does not
    match the 20-byte address width converts to an error; instead the Vec
    conversion panics on a 19-byte input, and the 32-byte conversion silently
    keeps the first 20 bytes, so two different 32-byte inputs coerce to the
    same address with no error. -/
theorem eth_address_conversions_panic_or_truncate :
    EthChainTypes.ethAddressFromVec (List.replicate 19 0) =
      RustOutcome.panicked "assertion failed: vec.len() == 20" ∧
    (List.replicate 20 0 ++ List.replicate 12 1 : List Nat) ≠
      List.replicate 32 0 ∧
    EthChainTypes.ethAddressFromBytes32 (List.replicate 20 0 ++ List.replicate 12 1) =
      EthChainTypes.ethAddressFromBytes32 (List.replicate 32 0) := by
  refine ⟨rfl, by decide, by decide⟩

/-- C6 amended: the conversions are implicit From impls, not fallible ones:
    the Vec conversion returns an address exactly when the input has length
    20 and otherwise panics (it has no error value), and the 32-byte
    conversion is total and always keeps exactly the first 20 bytes,
    silently dropping the last 12. -/
theorem eth_address_conversion_behaviour :
    (∀ v : List Nat,
      (∃ a, EthChainTypes.ethAddressFromVec v = RustOutcome.ok a) ↔
        v.length = 20) ∧
    (∀ b : List Nat, (EthChainTypes.ethAddressFromBytes32 b).val = b.take 20) := by
  constructor
  · intro v
    by_cases h : v.length = 20
    · simp [EthChainTypes.ethAddressFromVec, h]
    · simp [EthChainTypes.ethAddressFromVec, h]
  · intro b
    rfl

/-- C7: for a LockBridgeTransfer action whose recipient address is 32 bytes
    long, the deferred work first calls the funding helper, and when funding
    fails the lock call is never performed: the only effect is the funding
    attempt and the returned error is exactly the funding error wrapped in
    ActionExecError together with the failed action. -/
theorem lock_action_funding_failure_aborts_lock :
    ∀ (A : Type) (tryFromVec : List Nat → Option A)
      (action : Service.TransferAction)
      (bridge_transfer_id : Service.BridgeTransferId)
      (hash_lock : Service.HashLock)
      (initiator recipient : Service.BridgeAddress (List Nat))
      (amount : Service.Amount) (client : Service.BridgeContractClient A)
      (env : Service.MovementUtilsEnv) (e : Service.BridgeContractError),
      action.kind = Service.TransferActionType.LockBridgeTransfer
        bridge_transfer_id hash_lock initiator recipient amount →
      recipient.val.length = 32 →
      env.fund_recipient recipient.val = Except.error e →
      Service.process_action A tryFromVec action client env =
        some ([Service.Effect.fundRecipient recipient.val],
          Except.error ⟨action, e⟩) := by
  intro A tryFromVec action bridge_transfer_id hash_lock initiator recipient
    amount client env e hkind hlen hfund
  simp [Service.process_action, hkind, Service.lockBridgeTransferRun, hlen, hfund]

/-- C7 witness: concrete lock action with a 32-byte recipient against a
    failing funding environment: the run stops at the funding attempt with
    the wrapped funding error. -/
theorem lock_action_funding_failure_aborts_lock_witness :
    Service.process_action Unit sampleTryFromUnit sampleLockAction
        sampleClientUnit sampleFundFailEnv =
      some ([Service.Effect.fundRecipient (List.replicate 32 2)],
        Except.error ⟨sampleLockAction,
          Service.BridgeContractError.GenericError "no funds"⟩) :=
  lock_action_funding_failure_aborts_lock Unit sampleTryFromUnit
    sampleLockAction ⟨List.replicate 32 0⟩ ⟨List.replicate 32 0⟩
    ⟨List.replicate 32 1⟩ ⟨List.replicate 32 2⟩ ⟨100⟩ sampleClientUnit
    sampleFundFailEnv (Service.BridgeContractError.GenericError "no funds")
    rfl rfl rfl

/-- C8: process_action returns None exactly for the RefundInitiator,
    TransferDone and NoAction kinds, and a deferred unit of work exactly for
    the LockBridgeTransfer and WaitAndCompleteInitiator kinds. -/
theorem process_action_none_iff_passive_kind :
    ∀ (A : Type) (tryFromVec : List Nat → Option A)
      (action : Service.TransferAction) (client : Service.BridgeContractClient A)
      (env : Service.MovementUtilsEnv),
      (Service.process_action A tryFromVec action client env = none ↔
        (action.kind = Service.TransferActionType.RefundInitiator ∨
          action.kind = Service.TransferActionType.TransferDone ∨
          action.kind = Service.TransferActionType.NoAction)) := by
  intro A tryFromVec action client env
  obtain ⟨chain, transfer_id, kind⟩ := action
  cases kind <;> simp [Service.process_action]

/-- C9: the action engine performs no refund call at any time: for a
    RefundInitiator action process_action schedules no work at all, so in
    particular no refund is ever executed before the recorded time lock has
    elapsed (the refund path is handled outside the engine). -/
theorem refund_initiator_schedules_no_work :
    ∀ (A : Type) (tryFromVec : List Nat → Option A)
      (action : Service.TransferAction) (client : Service.BridgeContractClient A)
      (env : Service.MovementUtilsEnv),
      action.kind = Service.TransferActionType.RefundInitiator →
      Service.process_action A tryFromVec action client env = none := by
  intro A tryFromVec action client env hkind
  simp [Service.process_action, hkind]

/-- C9 witness: a concrete RefundInitiator action schedules no work. -/
theorem refund_initiator_schedules_no_work_witness :
    Service.process_action Unit sampleTryFromUnit sampleRefundAction
      sampleClientUnit sampleFundOkEnv = none :=
  refund_initiator_schedules_no_work Unit sampleTryFromUnit sampleRefundAction
    sampleClientUnit sampleFundOkEnv rfl

/-- C10: for every client state, environment and transfer id, the
    account-chain get_bridge_transfer_details panics via todo!() having
    submitted no payload to the chain, so no caller can obtain a Result from
    it; and cloning a MovementClient likewise panics via todo!(). -/
theorem movement_get_details_and_clone_panic :
    ∀ (c : MovementChain.MovementClient) (env : MovementChain.MovementChainEnv)
      (bridge_transfer_id : List Nat),
      MovementChain.get_bridge_transfer_details c env bridge_transfer_id =
        ([], RustOutcome.panicked "not yet implemented") ∧
      MovementChain.cloneMovementClient c =
        RustOutcome.panicked "not yet implemented" := by
  intro c env bridge_transfer_id
  exact ⟨rfl, rfl⟩
